import Mathlib

/-!
# Verification of the gps navigation backend (src/app.py and src/gps.py)

Shallow embedding of the navigation/location-tracking service.  The repository
holds two iterations of the same Flask service:

* `src/gps.py`  — the base variant (namespace `Gps` below): session lifecycle
  (start, step-completed, complete, status).
* `src/app.py`  — the enhanced variant (namespace `App` below): adds location
  ingestion with throttling, per-session history and statistics, bulk updates,
  and a destination endpoint.

Modelling conventions:

* Python floats are modelled as `ℚ`.  Every arithmetic step the claims touch
  (progress percentages, the running accuracy mean, the walk-time formula) is
  exact in these scenarios, so no floating-point rounding is involved.
* Timestamps (`time.time()`, `datetime.now()`) are an injected clock value
  `now : ℚ`, threaded through each operation.
* Python dicts keyed by session id are association lists `List (String × α)`
  with `dictGet` / `dictSet`; `defaultdict` reads that default to an empty
  value are written `(dictGet k m).getD ...` exactly where the source reads.
* JSON request bodies are records of `Option` fields: `none` models an absent
  (or null) key.  A `location` object missing `latitude`/`longitude` is
  collapsed into `none` as well, matching the handlers' validation checks.
* Python exceptions are explicit: each handler returns its state paired with a
  response constructor; a `raise` inside the `try` body jumps to the `except`
  branch carrying the state as mutated so far (module-level dict mutations
  survive the exception, exactly as in CPython).  `PyErr` records which
  exception fired.  Crucially, `src/app.py` never defines the module global
  `CURRENT_DESTINATION` (only the comment on its line 25 remains), so every
  reference to that name raises `NameError`; this is modelled by
  `CURRENT_DESTINATION : Option Destination := none` together with a `match`
  at every reference site.
* `calculate_distance` (src/app.py lines 45-55) is the Haversine formula built
  from `math.sin`, `math.cos`, `math.atan2`, `math.sqrt`.  Those transcendental
  functions have no computable rational embedding, so the distance function is
  a parameter `dist : Location → Location → ℚ` threaded to every operation
  that calls it.  No property verified here depends on the numeric value of a
  distance; every theorem below is universally quantified over `dist`.
* The decorative `print` logging and the `api_request_logs` ring buffer
  (spec §1 and §5 place request logging outside the core) are not modelled;
  neither feeds back into any handler's control flow or responses.
-/

/-- Association-list read, mirroring a Python dict lookup: first binding wins
(the lists below always hold at most one binding per key). -/
def dictGet {α : Type} (k : String) : List (String × α) → Option α
  | [] => none
  | (k₁, v) :: rest => if k₁ = k then some v else dictGet k rest

/-- Association-list write, mirroring a Python dict item assignment. -/
def dictSet {α : Type} (k : String) (v : α) : List (String × α) → List (String × α)
  | [] => [(k, v)]
  | (k₁, v₁) :: rest => if k₁ = k then (k, v) :: rest else (k₁, v₁) :: dictSet k v rest

@[simp]
theorem dictGet_set_self {α : Type} (k : String) (v : α) (l : List (String × α)) :
    dictGet k (dictSet k v l) = some v := by
  induction l with
  | nil => simp [dictGet, dictSet]
  | cons hd tl ih =>
    obtain ⟨k₁, v₁⟩ := hd
    by_cases h : k₁ = k <;> simp [dictGet, dictSet, h, ih]

theorem dictGet_set_ne {α : Type} {k₁ k : String} (v : α) (l : List (String × α))
    (h : k₁ ≠ k) : dictGet k₁ (dictSet k v l) = dictGet k₁ l := by
  induction l with
  | nil => simp [dictGet, dictSet, h, Ne.symm h]
  | cons hd tl ih =>
    obtain ⟨k₂, v₂⟩ := hd
    by_cases h₂ : k₂ = k
    · subst h₂
      simp [dictGet, dictSet, Ne.symm h]
    · by_cases h₃ : k₂ = k₁
      · subst h₃
        simp [dictGet, dictSet, h, h₂]
      · simp [dictGet, dictSet, h₂, h₃, ih]

/-- Python `int(q)`: truncation toward zero.  On the nonnegative values this
program feeds it, this is the floor. -/
def pyTrunc (q : ℚ) : ℤ := if 0 ≤ q then ⌊q⌋ else ⌈q⌉

/-- Python `round(q)` (no digits argument): round-half-to-even on the exact
rational value. -/
def pyRound (q : ℚ) : ℤ :=
  let f := ⌊q⌋
  let r := q - f
  if r < 1 / 2 then f
  else if 1 / 2 < r then f + 1
  else if f % 2 = 0 then f else f + 1

/-- Python `round(q, 1)` on values that are exactly representable. -/
def pyRound1 (q : ℚ) : ℚ := (pyRound (q * 10) : ℚ) / 10

/-- Python `round(q, 3)` on values that are exactly representable. -/
def pyRound3 (q : ℚ) : ℚ := (pyRound (q * 1000) : ℚ) / 1000

/-- A GPS fix as sent by clients: the `location` JSON object of src/app.py
(lines 162-169).  `latitude`/`longitude` are required by the handlers'
validation; the rest are optional. -/
structure Location where
  latitude : ℚ
  longitude : ℚ
  altitude : Option ℚ := none
  accuracy : Option ℚ := none
  speed : Option ℚ := none
  heading : Option ℚ := none
deriving DecidableEq

/-- Which Python exception a handler's `except` clause caught. -/
inductive PyErr where
  | nameError (name : String)
  | unboundLocal (name : String)
  | zeroDivision
  | typeError
deriving DecidableEq

/-- The destination record shape used by src/app.py (fields read or written by
the handlers: name, coordinates, address, instructions, the static distance
placeholder, updated_at). -/
structure Destination where
  name : String
  coordinates : Location
  address : String := ""
  instructions : String := ""
  distance : String := ""
  updated_at : Option ℚ := none
deriving DecidableEq

/-- src/app.py line 25 carries only the comment
"Single destination configuration - modify this as needed": the module never
binds the name CURRENT_DESTINATION.  Any handler reference to it therefore
raises NameError at request time; `none` here records the missing binding, and
every reference site below matches on it. -/
def CURRENT_DESTINATION : Option Destination := none

namespace App

/-- One entry of `location_history`.  Single updates (src/app.py lines 209-217)
carry user_id, update_count and time_since_last; bulk entries (lines 316-322)
instead carry the bulk_update flag.  Timestamps are clock values. -/
structure LocationRecord where
  session_id : String
  user_id : Option String
  location : Location
  timestamp : ℚ
  server_received_at : ℚ
  update_count : Option ℕ
  time_since_last : Option ℚ
  bulk_update : Bool
deriving DecidableEq

/-- Per-session statistics dict (src/app.py lines 59-67).  The variant
initialised by start_navigation (lines 601-607) lacks the first/last location
keys, hence the `Option`.  speed_records pairs a speed with its timestamp. -/
structure SessionStats where
  first_location : Option Location
  last_location : Option Location
  total_distance : ℚ
  total_updates : ℕ
  average_accuracy : ℚ
  speed_records : List (ℚ × ℚ)
deriving DecidableEq

/-- update_location_stats (src/app.py lines 57-98).  `prev` is the stored
stats entry if any; the function returns the updated entry.  The running-mean
divisor is the just-incremented update count, which is at least 1, so the
division cannot be Python's ZeroDivisionError; the `total_updates > 0` guard
means the last-location read only happens when a previous ingest stored one. -/
def update_location_stats (dist : Location → Location → ℚ)
    (prev : Option SessionStats) (location_data : Location) (now : ℚ) : SessionStats :=
  let stats : SessionStats :=
    match prev with
    | none =>
        { first_location := some location_data, last_location := some location_data,
          total_distance := 0, total_updates := 0, average_accuracy := 0,
          speed_records := [] }
    | some s => s
  -- lines 72-78: distance traveled since the previous sample
  let stats :=
    match stats.total_updates, stats.last_location with
    | _ + 1, some prev_loc =>
        { stats with total_distance := stats.total_distance + dist prev_loc location_data }
    | _, _ => stats
  -- lines 81-82
  let stats := { stats with last_location := some location_data,
                            total_updates := stats.total_updates + 1 }
  -- lines 85-88: `if location_data.get('accuracy'):` is a truthiness test, so
  -- a missing key, null, and 0 all skip the update
  let stats :=
    match location_data.accuracy with
    | some a =>
        if a ≠ 0 then
          { stats with average_accuracy :=
              (stats.average_accuracy * ((stats.total_updates : ℚ) - 1) + a)
                / (stats.total_updates : ℚ) }
        else stats
    | none => stats
  -- lines 91-98
  match location_data.speed with
  | some s =>
      if 0 < s then
        let recs := stats.speed_records ++ [(s, now)]
        { stats with speed_records := if recs.length > 50 then recs.drop 1 else recs }
      else stats
  | none => stats

/-- One step-completion record as appended to the global completed_steps list
(src/app.py lines 681-690). -/
structure StepCompletion where
  session_id : String
  step_index : ℤ
  step_instruction : String
  step_distance : String
  current_location : Location
  completion_time : ℚ
  accuracy : Option ℚ
deriving DecidableEq

/-- A navigation session dict as built by start_navigation
(src/app.py lines 582-594) and mutated by step_completed and
navigation_complete. -/
structure NavSession where
  session_id : String
  destination : Destination
  user_location : Option Location
  total_steps : Option ℤ
  total_distance : Option String
  total_duration : Option String
  started_at : ℚ
  completed_steps : ℤ
  status : String
  location_tracking_enabled : Bool
  last_update : Option ℚ := none
  completed_at : Option ℚ := none
  final_location : Option Location := none
  actual_total_time : Option String := none
  actual_distance_traveled : Option ℚ := none
deriving DecidableEq

/-- The module-level mutable state of src/app.py (lines 14-22): the session
map, the global completed-steps list, and the per-session location maps.
The api_request_logs list is omitted (see the header). -/
structure AppState where
  navigation_sessions : List (String × NavSession)
  completed_steps : List StepCompletion
  location_history : List (String × List LocationRecord)
  location_stats : List (String × SessionStats)
  last_location_update : List (String × ℚ)
  location_update_counts : List (String × ℕ)
deriving DecidableEq

/-- The state at process start: every store empty. -/
def initAppState : AppState :=
  { navigation_sessions := [], completed_steps := [], location_history := [],
    location_stats := [], last_location_update := [], location_update_counts := [] }

/-- LOCATION_UPDATE_THROTTLE (src/app.py line 23). -/
def LOCATION_UPDATE_THROTTLE : ℚ := 2

/-- The location history stored for a session (empty if the session has
none), as src/app.py reads location_history[session_id]. -/
def histOf (sid : String) (st : AppState) : List LocationRecord :=
  (dictGet sid st.location_history).getD []

/-- The stats entry stored for a session, if any. -/
def statsOf (sid : String) (st : AppState) : Option SessionStats :=
  dictGet sid st.location_stats

/-- Body of POST /api/location/update (src/app.py lines 159-171). -/
structure UpdateReq where
  session_id : Option String
  user_id : Option String
  location : Option Location
  timestamp : Option ℚ
deriving DecidableEq

/-- Response of POST /api/location/update.  badInput is HTTP 400, throttled
is 429, internalError is 500, ok is 200. -/
inductive ULResp where
  | badInput (error : String)
  | throttled (throttle_remaining : ℚ)
  | internalError (e : PyErr)
  | ok (session_id : String) (update_count : ℕ) (total_updates : ℕ)
      (total_distance_km : ℚ) (distance_to_destination : Option (ℚ × ℤ × String))
deriving DecidableEq

/-- src/app.py line 224: `location_history[session_id][-200:]`, applied when
the list has grown past 200 entries (line 223). -/
def keepLast200 (l : List LocationRecord) : List LocationRecord :=
  if l.length > 200 then l.drop (l.length - 200) else l

/-- The enhanced location record built by update_location
(src/app.py lines 209-217) once time_since_last is bound. -/
def singleRecord (d : UpdateReq) (loc : Location) (sid : String)
    (newCount : ℕ) (tsl : ℚ) (now : ℚ) : LocationRecord :=
  { session_id := sid, user_id := some (d.user_id.getD "anonymous"),
    location := loc, timestamp := d.timestamp.getD now, server_received_at := now,
    update_count := some newCount, time_since_last := some tsl, bulk_update := false }

/-- Continuation of update_location after the throttle check
(src/app.py lines 204-269).  `tsl` is the local variable time_since_last:
`none` means it was never assigned, which is exactly the state on the first
update for a session (the line 195 membership test was false, so line 196
never ran).  Line 205 has by then inserted the session into
last_location_update, so the conditional expression on line 216 always takes
its left branch and evaluating the unassigned local raises
UnboundLocalError — after the throttle stamp and counter were already
written, and before anything is appended to the history. -/
def updateLocationBody (dist : Location → Location → ℚ) (st : AppState)
    (d : UpdateReq) (loc : Location) (sid : String) (tsl : Option ℚ) (now : ℚ) :
    AppState × ULResp :=
  -- lines 205-206
  let newCount := (dictGet sid st.location_update_counts).getD 0 + 1
  let st₁ := { st with
    last_location_update := dictSet sid now st.last_location_update,
    location_update_counts := dictSet sid newCount st.location_update_counts }
  -- lines 209-217: building the record evaluates time_since_last
  match tsl with
  | none => (st₁, .internalError (.unboundLocal "time_since_last"))
  | some t =>
    let record := singleRecord d loc sid newCount t now
    -- lines 220-224
    let hist := keepLast200 ((dictGet sid st₁.location_history).getD [] ++ [record])
    let st₂ := { st₁ with location_history := dictSet sid hist st₁.location_history }
    -- line 227
    let stats := update_location_stats dist (dictGet sid st₂.location_stats) loc now
    let st₃ := { st₂ with location_stats := dictSet sid stats st₂.location_stats }
    -- line 231: `if CURRENT_DESTINATION:` evaluates the undefined name first
    match CURRENT_DESTINATION with
    | none => (st₃, .internalError (.nameError "CURRENT_DESTINATION"))
    | some dest =>
      -- lines 232-269 (never reached while CURRENT_DESTINATION is unbound)
      let dtd := dist loc dest.coordinates
      (st₃, .ok sid newCount stats.total_updates (pyRound3 stats.total_distance)
        (some (pyRound3 dtd, pyRound (dtd * 1000), dest.name)))

/-- update_location, the handler of POST /api/location/update
(src/app.py lines 155-279). -/
def update_location (dist : Location → Location → ℚ) (st : AppState)
    (data : Option UpdateReq) (now : ℚ) : AppState × ULResp :=
  match data with
  | none => (st, .badInput "No data provided")
  | some d =>
    match d.location with
    | none => (st, .badInput "Location data with latitude and longitude required")
    | some loc =>
      let sid := d.session_id.getD "anonymous"
      -- lines 195-202: throttle check
      match dictGet sid st.last_location_update with
      | some t =>
        if now - t < LOCATION_UPDATE_THROTTLE then
          (st, .throttled (LOCATION_UPDATE_THROTTLE - (now - t)))
        else
          updateLocationBody dist st d loc sid (some (now - t)) now
      | none => updateLocationBody dist st d loc sid none now

/-- One element of the locations array of POST /api/location/bulk-update. -/
structure BulkItem where
  location : Option Location
  timestamp : Option ℚ
deriving DecidableEq

/-- Body of POST /api/location/bulk-update (src/app.py lines 285-293). -/
structure BulkReq where
  session_id : Option String
  locations : Option (List BulkItem)
deriving DecidableEq

/-- Response of POST /api/location/bulk-update: badInput is 400, ok is 200. -/
inductive BulkResp where
  | badInput (error : String)
  | ok (processed_count : ℕ)
deriving DecidableEq

/-- The bulk location record (src/app.py lines 316-322). -/
def bulkRecord (sid : String) (now : ℚ) (item : BulkItem) (loc : Location) :
    LocationRecord :=
  { session_id := sid, user_id := none, location := loc,
    timestamp := item.timestamp.getD now, server_received_at := now,
    update_count := none, time_since_last := none, bulk_update := true }

/-- The for loop of bulk_update_location (src/app.py lines 314-326): each
element that carries a location is appended to the history (note: with no
capacity trim, unlike the single-update path) and folded into the stats;
the processed counter increments per such element. -/
def bulk_process (dist : Location → Location → ℚ) (sid : String) (now : ℚ)
    (st : AppState) : List BulkItem → AppState × ℕ
  | [] => (st, 0)
  | item :: rest =>
    match item.location with
    | none => bulk_process dist sid now st rest
    | some loc =>
      let hist := (dictGet sid st.location_history).getD [] ++ [bulkRecord sid now item loc]
      let stats := update_location_stats dist (dictGet sid st.location_stats) loc now
      let st₁ := { st with
        location_history := dictSet sid hist st.location_history,
        location_stats := dictSet sid stats st.location_stats }
      let res := bulk_process dist sid now st₁ rest
      (res.1, res.2 + 1)

/-- bulk_update_location, the handler of POST /api/location/bulk-update
(src/app.py lines 281-345). -/
def bulk_update_location (dist : Location → Location → ℚ) (st : AppState)
    (data : Option BulkReq) (now : ℚ) : AppState × BulkResp :=
  match data with
  | none => (st, .badInput "locations array required")
  | some d =>
    match d.locations with
    | none => (st, .badInput "locations array required")
    | some locations =>
      let sid := d.session_id.getD "anonymous"
      if locations.length > 50 then
        (st, .badInput "Maximum 50 locations per bulk update")
      else
        let res := bulk_process dist sid now st locations
        (res.1, .ok res.2)

/-- Body of POST /api/navigation/start (src/app.py lines 557-563). -/
structure StartReq where
  session_id : Option String
  user_location : Option Location
  total_steps : Option ℤ
  total_distance : Option String
  total_duration : Option String
deriving DecidableEq

/-- Response of POST /api/navigation/start: badInput is 400, internalError is
500, ok is 200. -/
inductive StartResp where
  | badInput (error : String)
  | internalError (e : PyErr)
  | ok (session_id : String) (destination_name : String)
deriving DecidableEq

/-- True exactly on the 500 responses of start_navigation. -/
def StartResp.is500 : StartResp → Bool
  | .internalError _ => true
  | _ => false

/-- start_navigation, the handler of POST /api/navigation/start
(src/app.py lines 553-638).  The session dict literal on lines 582-594
evaluates CURRENT_DESTINATION.copy() (line 584) before the assignment into
navigation_sessions can happen, so the NameError fires with no state written
at all. -/
def start_navigation (st : AppState) (data : Option StartReq) (now : ℚ) :
    AppState × StartResp :=
  match data with
  | none => (st, .badInput "No data provided")
  | some d =>
    match d.session_id with
    | none => (st, .badInput "session_id is required")
    | some sid =>
      if sid = "" then (st, .badInput "session_id is required")
      else
        match CURRENT_DESTINATION with
        | none => (st, .internalError (.nameError "CURRENT_DESTINATION"))
        | some dest =>
          -- lines 582-607 (never reached while CURRENT_DESTINATION is unbound)
          let sess : NavSession :=
            { session_id := sid, destination := dest, user_location := d.user_location,
              total_steps := d.total_steps, total_distance := d.total_distance,
              total_duration := d.total_duration, started_at := now,
              completed_steps := 0, status := "active", location_tracking_enabled := true }
          let st₁ := { st with navigation_sessions := dictSet sid sess st.navigation_sessions }
          let st₂ :=
            if dictGet sid st₁.location_history = none then
              { st₁ with location_history := dictSet sid [] st₁.location_history }
            else st₁
          let freshStats : SessionStats :=
            { first_location := none, last_location := none, total_distance := 0,
              total_updates := 0, average_accuracy := 0, speed_records := [] }
          let st₃ :=
            if dictGet sid st₂.location_stats = none then
              { st₂ with location_stats := dictSet sid freshStats st₂.location_stats }
            else st₂
          (st₃, .ok sid dest.name)

/-- Body of POST /api/navigation/step-completed (src/app.py lines 644-651). -/
structure StepReq where
  session_id : Option String
  step_index : Option ℤ
  step_instruction : Option String
  step_distance : Option String
  current_location : Option Location
  accuracy : Option ℚ
deriving DecidableEq

/-- Response of POST /api/navigation/step-completed: badInput and
missingFields are 400, notFound is 404, internalError is 500, ok is 200. -/
inductive StepResp where
  | badInput (error : String)
  | missingFields
  | notFound
  | internalError (e : PyErr)
  | ok (message : String) (step_index : ℤ) (destination_name : String)
      (completed_steps : ℤ) (total_steps : ℤ) (percentage : ℚ)
      (steps_remaining : ℤ) (voice_announcement : String)
deriving DecidableEq

/-- step_completed, the handler of POST /api/navigation/step-completed
(src/app.py lines 640-748).  The `all([...])` check on line 667 treats empty
strings as missing but lets step_index 0 through (it is tested with
`is not None`).  The step record and the session-progress mutations
(lines 693-697) happen before the progress division (line 713), so a
ZeroDivisionError (total_steps stored as 0) or TypeError (stored as null)
leaves them in place while the request still fails with 500.  The
`.get('total_steps', 1)` default is dead: sessions always carry the key. -/
def step_completed (st : AppState) (data : Option StepReq) (now : ℚ) :
    AppState × StepResp :=
  match data with
  | none => (st, .badInput "No data provided")
  | some d =>
    if d.session_id.getD "" = "" ∨ d.step_index = none
        ∨ d.step_instruction.getD "" = "" ∨ d.current_location = none then
      (st, .missingFields)
    else
      let sid := d.session_id.getD ""
      let step_index := d.step_index.getD 0
      match dictGet sid st.navigation_sessions with
      | none => (st, .notFound)
      | some sess =>
        -- lines 681-697
        let completion : StepCompletion :=
          { session_id := sid, step_index := step_index,
            step_instruction := d.step_instruction.getD "",
            step_distance := d.step_distance.getD "N/A",
            current_location := (d.current_location).getD
              { latitude := 0, longitude := 0 },
            completion_time := now, accuracy := d.accuracy }
        let sess₁ := { sess with completed_steps := step_index + 1, last_update := some now }
        let st₁ := { st with
          completed_steps := st.completed_steps ++ [completion],
          navigation_sessions := dictSet sid sess₁ st.navigation_sessions }
        let destination_name := sess.destination.name
        -- lines 712-714: progress, unguarded division
        match sess.total_steps with
        | none => (st₁, .internalError .typeError)
        | some total_steps =>
          if total_steps = 0 then (st₁, .internalError .zeroDivision)
          else
            let progress_percentage := (((step_index + 1 : ℤ) : ℚ) / (total_steps : ℚ)) * 100
            let steps_remaining := total_steps - (step_index + 1)
            -- lines 717-720
            let voice_announcement :=
              if steps_remaining > 0 then
                "Step completed. " ++ toString steps_remaining
                  ++ " steps remaining to " ++ destination_name ++ "."
              else
                "Final step completed. You have arrived at " ++ destination_name ++ "."
            (st₁, .ok ("Step " ++ toString (step_index + 1) ++ " completed")
              step_index destination_name (step_index + 1) total_steps
              (pyRound1 progress_percentage) steps_remaining voice_announcement)

/-- Body of POST /api/navigation/complete (src/app.py lines 753-759). -/
structure CompleteReq where
  session_id : Option String
  final_location : Option Location
  total_time : Option String
  total_distance_traveled : Option ℚ
deriving DecidableEq

/-- Response of POST /api/navigation/complete: badInput is 400, notFound is
404, ok is 200. -/
inductive CompleteResp where
  | badInput (error : String)
  | notFound
  | ok (destination_name : String) (total_steps_completed : ℤ)
deriving DecidableEq

/-- navigation_complete, the handler of POST /api/navigation/complete
(src/app.py lines 750-826).  Line 771 sends a missing, empty or unknown
session_id to the 404 branch. -/
def navigation_complete (st : AppState) (data : Option CompleteReq) (now : ℚ) :
    AppState × CompleteResp :=
  match data with
  | none => (st, .badInput "No data provided")
  | some d =>
    match d.session_id with
    | none => (st, .notFound)
    | some sid =>
      if sid = "" then (st, .notFound)
      else
        match dictGet sid st.navigation_sessions with
        | none => (st, .notFound)
        | some sess =>
          let sess₁ := { sess with
            status := "completed"
            completed_at := some now
            final_location := d.final_location
            actual_total_time := d.total_time
            actual_distance_traveled := d.total_distance_traveled
            location_tracking_enabled := false }
          ({ st with navigation_sessions := dictSet sid sess₁ st.navigation_sessions },
            .ok sess.destination.name sess₁.completed_steps)

/-- Response of GET /api/navigation/status: notFound is 404, ok is 200
(modelling the summary block of src/app.py lines 857-863). -/
inductive StatusResp where
  | notFound
  | ok (total_steps : Option ℤ) (completed_steps : ℕ) (progress_percentage : ℚ)
      (status : String) (destination_name : String)
deriving DecidableEq

/-- get_navigation_status, the handler of GET /api/navigation/status
(src/app.py lines 828-871).  Line 860 guards the division with the
truthiness of total_steps, so null and 0 both yield progress 0. -/
def get_navigation_status (st : AppState) (session_id : String) : StatusResp :=
  match dictGet session_id st.navigation_sessions with
  | none => .notFound
  | some sess =>
    let session_steps := st.completed_steps.filter (fun s => s.session_id = session_id)
    let progress :=
      match sess.total_steps with
      | some ts => if ts ≠ 0 then ((session_steps.length : ℚ) / (ts : ℚ)) * 100 else 0
      | none => 0
    .ok sess.total_steps session_steps.length progress sess.status sess.destination.name

/-- src/app.py line 128: the walking-time estimate attached to a destination,
`max(5, int(distance * 3))` — note `int`, a truncation. -/
def calculated_time_minutes (d : ℚ) : ℤ := max 5 (pyTrunc (d * 3))

/-- Modelled from the spec sentence of §4.1: `estimatedWalkTimeMinutes
(distanceKm) -> int`: `max(5, round(distanceKm * 3))`.  Stated here only to
compare against `calculated_time_minutes`, the formula the code uses. -/
def spec_estimatedWalkTimeMinutes (d : ℚ) : ℤ := max 5 (pyRound (d * 3))

/-- Response of GET /api/destination: missingParam is 400, internalError is
500, ok is 200, carrying the destination copy and, when the user location
parsed, the calculated enrichment (distance km, distance meters, walk time). -/
inductive DestResp where
  | missingParam
  | internalError (e : PyErr)
  | ok (destination : Destination) (enrichment : Option (ℚ × ℤ × ℤ))
deriving DecidableEq

/-- get_current_destination, the handler of GET /api/destination
(src/app.py lines 100-153).  `user_location` is the raw query parameter
(absent or a string); `parse` stands for the float parsing
`map(float, user_location.split(','))` of line 121, whose failure the inner
try swallows (lines 131-133), keeping the unenriched copy.  The copy itself
(line 117) evaluates CURRENT_DESTINATION first. -/
def get_current_destination (dist : Location → Location → ℚ)
    (parse : String → Option Location) (user_location : Option String) : DestResp :=
  match user_location with
  | none => .missingParam
  | some s =>
    if s = "" then .missingParam
    else
      match CURRENT_DESTINATION with
      | none => .internalError (.nameError "CURRENT_DESTINATION")
      | some destination =>
        match parse s with
        | none => .ok destination none
        | some loc =>
          let d := dist loc destination.coordinates
          .ok destination (some (d, pyTrunc (d * 1000), calculated_time_minutes d))

end App

namespace Gps

/-- A navigation session dict as built by src/gps.py lines 44-54. -/
structure GpsSession where
  session_id : String
  origin : Option Location
  destination : Option Location
  total_steps : Option ℤ
  total_distance : Option String
  total_duration : Option String
  started_at : ℚ
  completed_steps : ℤ
  status : String
  last_update : Option ℚ := none
  completed_at : Option ℚ := none
  final_location : Option Location := none
  actual_total_time : Option String := none
  actual_distance_traveled : Option ℚ := none
deriving DecidableEq

/-- One step-completion record (src/gps.py lines 117-127). -/
structure GpsStepRecord where
  session_id : String
  step_index : ℤ
  step_instruction : String
  step_distance : String
  step_duration : String
  current_location : Location
  completion_time : ℚ
  accuracy : Option ℚ
deriving DecidableEq

/-- The module-level mutable state of src/gps.py (lines 11-12). -/
structure GpsState where
  navigation_sessions : List (String × GpsSession)
  completed_steps : List GpsStepRecord
deriving DecidableEq

/-- The state at process start. -/
def initGpsState : GpsState := { navigation_sessions := [], completed_steps := [] }

/-- Body of POST /api/navigation/start (src/gps.py lines 18-25). -/
structure StartReq where
  session_id : Option String
  origin : Option Location
  destination : Option Location
  total_steps : Option ℤ
  total_distance : Option String
  total_duration : Option String
deriving DecidableEq

/-- Response of POST /api/navigation/start: badInput is 400, ok is 200. -/
inductive StartResp where
  | badInput (error : String)
  | ok (session_id : String)
deriving DecidableEq

/-- start_navigation, the handler of POST /api/navigation/start
(src/gps.py lines 14-72).  It stores whatever total_steps the caller sent,
zero included. -/
def start_navigation (st : GpsState) (data : Option StartReq) (now : ℚ) :
    GpsState × StartResp :=
  match data with
  | none => (st, .badInput "No data provided")
  | some d =>
    match d.session_id with
    | none => (st, .badInput "session_id is required")
    | some sid =>
      if sid = "" then (st, .badInput "session_id is required")
      else
        let sess : GpsSession :=
          { session_id := sid, origin := d.origin, destination := d.destination,
            total_steps := d.total_steps, total_distance := d.total_distance,
            total_duration := d.total_duration, started_at := now,
            completed_steps := 0, status := "active" }
        ({ st with navigation_sessions := dictSet sid sess st.navigation_sessions },
          .ok sid)

/-- Body of POST /api/navigation/step-completed (src/gps.py lines 78-87). -/
structure StepReq where
  session_id : Option String
  step_index : Option ℤ
  step_instruction : Option String
  step_distance : Option String
  step_duration : Option String
  current_location : Option Location
  completion_time : Option ℚ
  accuracy : Option ℚ
deriving DecidableEq

/-- Response of POST /api/navigation/step-completed: badInput and
missingFields are 400, notFound is 404, internalError is 500, ok is 200.
The ok payload models the progress block and the message of src/gps.py
lines 149-161; the next_step_message duplicate (a formatted restatement of
the same numbers) is not modelled.  No field of this response carries any
voice-announcement text: src/gps.py generates none. -/
inductive StepResp where
  | badInput (error : String)
  | missingFields
  | notFound
  | internalError (e : PyErr)
  | ok (message : String) (step_index : ℤ) (completed_steps : ℤ)
      (total_steps : ℤ) (percentage : ℚ)
deriving DecidableEq

/-- step_completed, the handler of POST /api/navigation/step-completed
(src/gps.py lines 74-168).  As in the enhanced variant, the step record and
session mutations (lines 130-134) precede the unguarded progress division
(line 147), and the `.get('total_steps', 1)` default is dead because
sessions always carry the key: a stored 0 raises ZeroDivisionError, a stored
null raises TypeError, both landing in the except clause as a 500 after the
step was already recorded. -/
def step_completed (st : GpsState) (data : Option StepReq) (now : ℚ) :
    GpsState × StepResp :=
  match data with
  | none => (st, .badInput "No data provided")
  | some d =>
    if d.session_id.getD "" = "" ∨ d.step_index = none
        ∨ d.step_instruction.getD "" = "" ∨ d.current_location = none then
      (st, .missingFields)
    else
      let sid := d.session_id.getD ""
      let step_index := d.step_index.getD 0
      match dictGet sid st.navigation_sessions with
      | none => (st, .notFound)
      | some sess =>
        let record : GpsStepRecord :=
          { session_id := sid, step_index := step_index,
            step_instruction := d.step_instruction.getD "",
            step_distance := d.step_distance.getD "N/A",
            step_duration := d.step_duration.getD "N/A",
            current_location := (d.current_location).getD
              { latitude := 0, longitude := 0 },
            completion_time := d.completion_time.getD now, accuracy := d.accuracy }
        let sess₁ := { sess with completed_steps := step_index + 1, last_update := some now }
        let st₁ := { st with
          completed_steps := st.completed_steps ++ [record],
          navigation_sessions := dictSet sid sess₁ st.navigation_sessions }
        match sess.total_steps with
        | none => (st₁, .internalError .typeError)
        | some total_steps =>
          if total_steps = 0 then (st₁, .internalError .zeroDivision)
          else
            let progress_percentage := (((step_index + 1 : ℤ) : ℚ) / (total_steps : ℚ)) * 100
            (st₁, .ok ("Step " ++ toString (step_index + 1) ++ " completed successfully!")
              step_index (step_index + 1) total_steps (pyRound1 progress_percentage))

end Gps

/-!
## Concrete fixtures

Inputs used by the concrete evaluations below.  `dist0` instantiates the
abstract Haversine parameter; none of the evaluated facts inspect a distance
value.
-/

/-- A concrete distance function for evaluations. -/
def dist0 : Location → Location → ℚ := fun _ _ => 0

/-- A well-formed user location. -/
def loc0 : Location := { latitude := 32, longitude := 76 }

/-- A well-formed single location update for session S1. -/
def ulReq0 : App.UpdateReq :=
  { session_id := some "S1", user_id := none, location := some loc0, timestamp := some 0 }

/-- The state after the first single update for S1 at time 0: the throttle
stamp and counter are set even though the request itself failed with 500. -/
def ulSt1 : App.AppState := (App.update_location dist0 App.initAppState (some ulReq0) 0).1

/-- C1: every request for the current destination that supplies a
user_location is claimed to succeed with the destination singleton enriched
with distance and walk time.  In src/app.py the singleton was never created:
line 117 `CURRENT_DESTINATION.copy()` raises NameError and the handler
returns 500 for every such request, including this well-formed one. -/
theorem c1_destination_request_raises_name_error :
    App.get_current_destination dist0 (fun _ => none) (some "32.0,76.0")
      = App.DestResp.internalError (.nameError "CURRENT_DESTINATION") := rfl

/-- C2 counterexample: the claim says the start operation returns
InternalError (500) for every input; the empty body is an input answered
with 400, not 500. -/
theorem c2_counterexample_empty_body_is_400 :
    (App.start_navigation App.initAppState none 0).2
        = App.StartResp.badInput "No data provided"
      ∧ (App.start_navigation App.initAppState none 0).2.is500 = false := by
  exact ⟨rfl, rfl⟩

/-- C2 (amended): for every input that passes validation (a body carrying a
non-empty session_id), start_navigation raises NameError on the undefined
CURRENT_DESTINATION while building the session record and returns 500; no
input ever mutates the state, so the session store stays empty and every
well-formed step-completed, complete, or status call answers 404. -/
theorem c2_start_raises_before_storing :
    (∀ (st : App.AppState) (d : App.StartReq) (sid : String) (now : ℚ),
        d.session_id = some sid → sid ≠ "" →
        App.start_navigation st (some d) now
          = (st, App.StartResp.internalError (.nameError "CURRENT_DESTINATION")))
  ∧ (∀ (st : App.AppState) (data : Option App.StartReq) (now : ℚ),
        (App.start_navigation st data now).1 = st)
  ∧ (∀ (st : App.AppState) (d : App.StepReq) (now : ℚ),
        st.navigation_sessions = [] →
        d.session_id.getD "" ≠ "" → d.step_index ≠ none →
        d.step_instruction.getD "" ≠ "" → d.current_location ≠ none →
        App.step_completed st (some d) now = (st, App.StepResp.notFound))
  ∧ (∀ (st : App.AppState) (d : App.CompleteReq) (now : ℚ),
        st.navigation_sessions = [] →
        App.navigation_complete st (some d) now = (st, App.CompleteResp.notFound))
  ∧ (∀ (st : App.AppState) (sid : String),
        st.navigation_sessions = [] →
        App.get_navigation_status st sid = App.StatusResp.notFound) := by
  refine ⟨?_, ?_, ?_, ?_, ?_⟩
  · intro st d sid now h hne
    simp [App.start_navigation, h, hne, CURRENT_DESTINATION]
  · intro st data now
    match data with
    | none => rfl
    | some d =>
      match h : d.session_id with
      | none => simp [App.start_navigation, h]
      | some sid =>
        by_cases hs : sid = "" <;>
          simp [App.start_navigation, h, hs, CURRENT_DESTINATION]
  · intro st d now hemp h₁ h₂ h₃ h₄
    simp [App.step_completed, h₁, h₂, h₃, h₄, hemp, dictGet]
  · intro st d now hemp
    match h : d.session_id with
    | none => simp [App.navigation_complete, h]
    | some sid =>
      by_cases hs : sid = "" <;>
        simp [App.navigation_complete, h, hs, hemp, dictGet]
  · intro st sid hemp
    simp [App.get_navigation_status, hemp, dictGet]

/-- A start request with a session id and four steps. -/
def startReqS1 : App.StartReq :=
  { session_id := some "S1", user_location := some loc0, total_steps := some 4,
    total_distance := some "1 km", total_duration := some "10 min" }

/-- A well-formed step-completed request for S1 in the enhanced variant. -/
def stepReqApp (i : ℤ) : App.StepReq :=
  { session_id := some "S1", step_index := some i, step_instruction := some "go",
    step_distance := none, current_location := some loc0, accuracy := none }

/-- A well-formed navigation-complete request for S1. -/
def completeReq0 : App.CompleteReq :=
  { session_id := some "S1", final_location := some loc0, total_time := some "5 min",
    total_distance_traveled := some 1 }

/-- Witness for C2 at concrete inputs. -/
theorem c2_witness :
    App.start_navigation App.initAppState (some startReqS1) 0
        = (App.initAppState, App.StartResp.internalError (.nameError "CURRENT_DESTINATION"))
      ∧ App.step_completed App.initAppState (some (stepReqApp 0)) 1
        = (App.initAppState, App.StepResp.notFound)
      ∧ App.navigation_complete App.initAppState (some completeReq0) 2
        = (App.initAppState, App.CompleteResp.notFound)
      ∧ App.get_navigation_status App.initAppState "S1" = App.StatusResp.notFound := by
  refine ⟨?_, ?_, ?_, ?_⟩
  · exact c2_start_raises_before_storing.1 App.initAppState startReqS1 "S1" 0 rfl (by decide)
  · exact c2_start_raises_before_storing.2.2.1 App.initAppState (stepReqApp 0) 1 rfl
      (by decide) (by decide) (by decide) (by decide)
  · exact c2_start_raises_before_storing.2.2.2.1 App.initAppState completeReq0 2 rfl
  · exact c2_start_raises_before_storing.2.2.2.2 App.initAppState "S1" rfl

/-- C3: two updates for one session arriving inside the 2.0s window: the
second is throttled with a retry-after hint (and leaves the state untouched);
but an update arriving a full window after the last stamped one does not
succeed as the claim says: it passes the throttle check and then fails with
500 on the undefined CURRENT_DESTINATION (after appending the sample).
The evaluation runs S1 updates at times 0, 1 and 3. -/
theorem c3_throttled_then_internal_error :
    (App.update_location dist0 App.initAppState (some ulReq0) 0).2
        = App.ULResp.internalError (.unboundLocal "time_since_last")
      ∧ App.update_location dist0 ulSt1 (some ulReq0) 1
        = (ulSt1, App.ULResp.throttled 1)
      ∧ (App.update_location dist0 ulSt1 (some ulReq0) 3).2
        = App.ULResp.internalError (.nameError "CURRENT_DESTINATION") := by
  refine ⟨rfl, ?_, ?_⟩
  · norm_num [App.update_location, App.updateLocationBody, ulSt1, ulReq0, dictGet,
      App.initAppState, App.LOCATION_UPDATE_THROTTLE]
  · norm_num [App.update_location, App.updateLocationBody, ulSt1, ulReq0, dictGet,
      App.initAppState, App.LOCATION_UPDATE_THROTTLE, CURRENT_DESTINATION]

/-- C4: every non-throttled valid single update returns 500, and the failure
is not atomic.  First ingest for a session (no throttle stamp yet): the
stamp and counter are written, then building the record hits the unassigned
local time_since_last, so the request dies with 500 before the sample
reaches the history (the sample is dropped).  Every later non-throttled
ingest: the sample is appended (with the 200-cap trim) and the stats are
updated, and then the reference to the undefined CURRENT_DESTINATION kills
the request with 500. -/
theorem c4_update_location_error_after_mutation
    (dist : Location → Location → ℚ) (st : App.AppState) (d : App.UpdateReq)
    (loc : Location) (sid : String) (now : ℚ)
    (hloc : d.location = some loc) (hsid : sid = d.session_id.getD "anonymous") :
    (dictGet sid st.last_location_update = none →
      App.update_location dist st (some d) now
        = ({ st with
              last_location_update := dictSet sid now st.last_location_update,
              location_update_counts := dictSet sid
                ((dictGet sid st.location_update_counts).getD 0 + 1)
                st.location_update_counts },
            App.ULResp.internalError (.unboundLocal "time_since_last")))
  ∧ (∀ t, dictGet sid st.last_location_update = some t →
      ¬ (now - t < App.LOCATION_UPDATE_THROTTLE) →
      (App.update_location dist st (some d) now).2
          = App.ULResp.internalError (.nameError "CURRENT_DESTINATION")
        ∧ App.histOf sid (App.update_location dist st (some d) now).1
          = App.keepLast200 (App.histOf sid st
              ++ [App.singleRecord d loc sid
                    ((dictGet sid st.location_update_counts).getD 0 + 1) (now - t) now])
        ∧ App.statsOf sid (App.update_location dist st (some d) now).1
          = some (App.update_location_stats dist (App.statsOf sid st) loc now)) := by
  subst hsid
  constructor
  · intro hnone
    simp [App.update_location, App.updateLocationBody, hloc, hnone]
  · intro t ht hthr
    refine ⟨?_, ?_, ?_⟩ <;>
      simp [App.update_location, App.updateLocationBody, hloc, ht, hthr,
        CURRENT_DESTINATION, App.histOf, App.statsOf]

/-- A state whose S1 throttle stamp is 0 with nothing else recorded. -/
def ulStW : App.AppState := { App.initAppState with last_location_update := [("S1", 0)] }

/-- Witness for C4: the first S1 ingest at time 0 from the initial state, and
a later ingest at time 2 from a state stamped at time 0. -/
theorem c4_witness :
    App.update_location dist0 App.initAppState (some ulReq0) 0
        = ({ App.initAppState with
              last_location_update := dictSet "S1" 0 App.initAppState.last_location_update,
              location_update_counts := dictSet "S1"
                ((dictGet "S1" App.initAppState.location_update_counts).getD 0 + 1)
                App.initAppState.location_update_counts },
            App.ULResp.internalError (.unboundLocal "time_since_last"))
      ∧ (App.update_location dist0 ulStW (some ulReq0) 2).2
        = App.ULResp.internalError (.nameError "CURRENT_DESTINATION") := by
  constructor
  · exact (c4_update_location_error_after_mutation dist0 App.initAppState ulReq0 loc0
      "S1" 0 rfl rfl).1 rfl
  · exact ((c4_update_location_error_after_mutation dist0 ulStW ulReq0 loc0
      "S1" 2 rfl rfl).2 0 rfl (by simp [App.LOCATION_UPDATE_THROTTLE])).1

/-- A bulk item carrying a location. -/
def bulkItem0 : App.BulkItem := { location := some loc0, timestamp := some 0 }

/-- A maximal admissible bulk batch for S1: 50 located samples. -/
def bulkReq50 : App.BulkReq :=
  { session_id := some "S1", locations := some (List.replicate 50 bulkItem0) }

/-- One accepted bulk round for S1. -/
def applyBulk (st : App.AppState) : App.AppState :=
  (App.bulk_update_location dist0 st (some bulkReq50) 0).1

set_option maxRecDepth 10000 in
/-- C5: the claim says the per-session history never exceeds 200 entries
across single and bulk ingests combined.  The bulk path
(src/app.py lines 314-326) appends without any trim, so five accepted
batches of 50 leave a history of 250 entries. -/
theorem c5_bulk_history_exceeds_cap :
    (App.histOf "S1"
        (applyBulk (applyBulk (applyBulk (applyBulk (applyBulk App.initAppState)))))).length
      = 250 := rfl

/-- The gps-variant start request with four steps. -/
def gpsStartReq4 : Gps.StartReq :=
  { session_id := some "S1", origin := some loc0, destination := some loc0,
    total_steps := some 4, total_distance := some "1 km", total_duration := some "10 min" }

/-- A well-formed gps-variant step-completed request for S1. -/
def gpsStepReq (i : ℤ) : Gps.StepReq :=
  { session_id := some "S1", step_index := some i, step_instruction := some "go",
    step_distance := none, step_duration := none, current_location := some loc0,
    completion_time := none, accuracy := none }

/-- The gps-variant state after starting S1 with four steps. -/
def gpsSt1 : Gps.GpsState := (Gps.start_navigation Gps.initGpsState (some gpsStartReq4) 0).1

/-- After completing step 0. -/
def gpsSt2 : Gps.GpsState := (Gps.step_completed gpsSt1 (some (gpsStepReq 0)) 1).1

/-- After completing step 1. -/
def gpsSt3 : Gps.GpsState := (Gps.step_completed gpsSt2 (some (gpsStepReq 1)) 2).1

/-- After completing step 2. -/
def gpsSt4 : Gps.GpsState := (Gps.step_completed gpsSt3 (some (gpsStepReq 2)) 3).1

/-- C6: the claimed scenario (start with totalSteps=4, then complete steps
0..3 with percentages 25/50/75/100 and an arrival voice text) cannot run in
src/app.py: start fails with 500 on the undefined CURRENT_DESTINATION and
stores nothing, so the first step-completed call answers 404.  In src/gps.py
the percentage sequence does hold, with completedSteps set to stepIndex+1 at
each step, but the responses carry no voice-announcement text at all (the
step-3 message is plain "Step 4 completed successfully!"). -/
theorem c6_progress_scenario_evaluation :
    (App.start_navigation App.initAppState (some startReqS1) 0).2
        = App.StartResp.internalError (.nameError "CURRENT_DESTINATION")
      ∧ (App.start_navigation App.initAppState (some startReqS1) 0).1 = App.initAppState
      ∧ (App.step_completed App.initAppState (some (stepReqApp 0)) 1).2 = App.StepResp.notFound
      ∧ (Gps.step_completed gpsSt1 (some (gpsStepReq 0)) 1).2
        = Gps.StepResp.ok "Step 1 completed successfully!" 0 1 4 25
      ∧ (Gps.step_completed gpsSt2 (some (gpsStepReq 1)) 2).2
        = Gps.StepResp.ok "Step 2 completed successfully!" 1 2 4 50
      ∧ (Gps.step_completed gpsSt3 (some (gpsStepReq 2)) 3).2
        = Gps.StepResp.ok "Step 3 completed successfully!" 2 3 4 75
      ∧ (Gps.step_completed gpsSt4 (some (gpsStepReq 3)) 4).2
        = Gps.StepResp.ok "Step 4 completed successfully!" 3 4 4 100 := by
  have e₁ : (Gps.step_completed gpsSt1 (some (gpsStepReq 0)) 1).2
      = Gps.StepResp.ok "Step 1 completed successfully!" 0 1 4
          (pyRound1 (((0 + 1 : ℤ) : ℚ) / ((4 : ℤ) : ℚ) * 100)) := rfl
  have e₂ : (Gps.step_completed gpsSt2 (some (gpsStepReq 1)) 2).2
      = Gps.StepResp.ok "Step 2 completed successfully!" 1 2 4
          (pyRound1 (((1 + 1 : ℤ) : ℚ) / ((4 : ℤ) : ℚ) * 100)) := rfl
  have e₃ : (Gps.step_completed gpsSt3 (some (gpsStepReq 2)) 3).2
      = Gps.StepResp.ok "Step 3 completed successfully!" 2 3 4
          (pyRound1 (((2 + 1 : ℤ) : ℚ) / ((4 : ℤ) : ℚ) * 100)) := rfl
  have e₄ : (Gps.step_completed gpsSt4 (some (gpsStepReq 3)) 4).2
      = Gps.StepResp.ok "Step 4 completed successfully!" 3 4 4
          (pyRound1 (((3 + 1 : ℤ) : ℚ) / ((4 : ℤ) : ℚ) * 100)) := rfl
  have a₁ : pyRound1 (((0 + 1 : ℤ) : ℚ) / ((4 : ℤ) : ℚ) * 100) = 25 := by
    norm_num [pyRound1, pyRound]
  have a₂ : pyRound1 (((1 + 1 : ℤ) : ℚ) / ((4 : ℤ) : ℚ) * 100) = 50 := by
    norm_num [pyRound1, pyRound]
  have a₃ : pyRound1 (((2 + 1 : ℤ) : ℚ) / ((4 : ℤ) : ℚ) * 100) = 75 := by
    norm_num [pyRound1, pyRound]
  have a₄ : pyRound1 (((3 + 1 : ℤ) : ℚ) / ((4 : ℤ) : ℚ) * 100) = 100 := by
    norm_num [pyRound1, pyRound]
  refine ⟨rfl, rfl, rfl, ?_, ?_, ?_, ?_⟩
  · rw [e₁, a₁]
  · rw [e₂, a₂]
  · rw [e₃, a₃]
  · rw [e₄, a₄]

/-- The gps-variant start request that stores totalSteps = 0. -/
def gpsStartReq0 : Gps.StartReq :=
  { session_id := some "S1", origin := some loc0, destination := some loc0,
    total_steps := some 0, total_distance := none, total_duration := none }

/-- The gps-variant state after starting S1 with totalSteps = 0. -/
def gpsSt0 : Gps.GpsState := (Gps.start_navigation Gps.initGpsState (some gpsStartReq0) 0).1

/-- C7 counterexample: the claim says the progress computation is guarded and
totalSteps at or below zero is reported as 100 percent.  src/gps.py accepts a
start with totalSteps = 0 and the following step-completed divides by it:
ZeroDivisionError, answered as 500 — no guard, no 100 percent. -/
theorem c7_counterexample_zero_total_steps :
    (Gps.start_navigation Gps.initGpsState (some gpsStartReq0) 0).2 = Gps.StartResp.ok "S1"
      ∧ (Gps.step_completed gpsSt0 (some (gpsStepReq 0)) 1).2
        = Gps.StepResp.internalError .zeroDivision := ⟨rfl, rfl⟩

/-- C7 (amended): there is no division-by-zero guard.  For every session
whose stored total_steps is 0, a well-formed step-completed call raises
ZeroDivisionError and answers 500 — after the step record was already
appended.  (The dictionary default of 1 is dead because sessions always
carry the total_steps key; a stored null raises TypeError instead.) -/
theorem c7_zero_total_steps_raises
    (st : Gps.GpsState) (d : Gps.StepReq) (sid : String) (sess : Gps.GpsSession) (now : ℚ)
    (hsid : d.session_id.getD "" = sid) (hne : sid ≠ "")
    (hidx : d.step_index ≠ none) (hins : d.step_instruction.getD "" ≠ "")
    (hcl : d.current_location ≠ none)
    (hget : dictGet sid st.navigation_sessions = some sess)
    (hts : sess.total_steps = some 0) :
    (Gps.step_completed st (some d) now).2 = Gps.StepResp.internalError .zeroDivision
      ∧ (Gps.step_completed st (some d) now).1.completed_steps.length
        = st.completed_steps.length + 1 := by
  subst hsid
  constructor <;> simp [Gps.step_completed, hne, hidx, hins, hcl, hget, hts]

/-- Witness for C7 at the state produced by the zero-step start. -/
theorem c7_witness :
    (Gps.step_completed gpsSt0 (some (gpsStepReq 0)) 1).2
        = Gps.StepResp.internalError .zeroDivision
      ∧ (Gps.step_completed gpsSt0 (some (gpsStepReq 0)) 1).1.completed_steps.length
        = gpsSt0.completed_steps.length + 1 :=
  c7_zero_total_steps_raises gpsSt0 (gpsStepReq 0) "S1"
    { session_id := "S1", origin := some loc0, destination := some loc0,
      total_steps := some 0, total_distance := none, total_duration := none,
      started_at := 0, completed_steps := 0, status := "active" }
    1 rfl (by decide) (by decide) (by decide) (by decide) rfl rfl

/-- The bulk for loop processes exactly the located items, in order: the
counter counts them, the session history grows by their records in batch
order, and the stats fold over their locations one ingest at a time. -/
theorem bulk_process_characterization (dist : Location → Location → ℚ)
    (sid : String) (now : ℚ) :
    ∀ (items : List App.BulkItem) (st : App.AppState),
      (App.bulk_process dist sid now st items).2
          = (items.filterMap App.BulkItem.location).length
        ∧ App.histOf sid (App.bulk_process dist sid now st items).1
          = App.histOf sid st
              ++ items.filterMap (fun it => it.location.map (App.bulkRecord sid now it))
        ∧ App.statsOf sid (App.bulk_process dist sid now st items).1
          = (items.filterMap App.BulkItem.location).foldl
              (fun acc loc => some (App.update_location_stats dist acc loc now))
              (App.statsOf sid st) := by
  intro items
  induction items with
  | nil =>
    intro st
    exact ⟨rfl, by simp [App.bulk_process], rfl⟩
  | cons item rest ih =>
    intro st
    match hl : item.location with
    | none =>
      have := ih st
      simp only [App.bulk_process, hl, List.filterMap_cons_none, hl] at this ⊢
      simpa [List.filterMap_cons, hl] using this
    | some loc =>
      set st₁ : App.AppState := { st with
        location_history := dictSet sid
          ((dictGet sid st.location_history).getD [] ++ [App.bulkRecord sid now item loc])
          st.location_history,
        location_stats := dictSet sid
          (App.update_location_stats dist (dictGet sid st.location_stats) loc now)
          st.location_stats } with hst₁
      have hrun : App.bulk_process dist sid now st (item :: rest)
          = ((App.bulk_process dist sid now st₁ rest).1,
             (App.bulk_process dist sid now st₁ rest).2 + 1) := by
        simp [App.bulk_process, hl, hst₁]
      have hhist : App.histOf sid st₁
          = App.histOf sid st ++ [App.bulkRecord sid now item loc] := by
        simp [App.histOf, hst₁]
      have hstats : App.statsOf sid st₁
          = some (App.update_location_stats dist (App.statsOf sid st) loc now) := by
        simp [App.statsOf, hst₁]
      obtain ⟨ihc, ihh, ihs⟩ := ih st₁
      refine ⟨?_, ?_, ?_⟩
      · rw [hrun]
        simp [ihc, List.filterMap_cons, hl]
      · rw [hrun]
        simp only [ihh, hhist, List.filterMap_cons, hl, Option.map_some]
        simp [List.append_assoc]
      · rw [hrun]
        simp only [ihs, hstats, List.filterMap_cons, hl]
        simp [App.statsOf]

/-- C8: a bulk batch of more than 50 samples is rejected whole with 400 and
no state change; a batch of at most 50 has each located sample appended to
the session history in batch order with the stats folded per sample, and the
returned processedCount equals the number of samples processed. -/
theorem c8_bulk_batch_semantics (dist : Location → Location → ℚ)
    (st : App.AppState) (d : App.BulkReq) (locs : List App.BulkItem)
    (sid : String) (now : ℚ)
    (h : d.locations = some locs) (hsid : sid = d.session_id.getD "anonymous") :
    (50 < locs.length →
      App.bulk_update_location dist st (some d) now
        = (st, App.BulkResp.badInput "Maximum 50 locations per bulk update"))
  ∧ (locs.length ≤ 50 →
      (App.bulk_update_location dist st (some d) now).2
          = App.BulkResp.ok (locs.filterMap App.BulkItem.location).length
        ∧ App.histOf sid (App.bulk_update_location dist st (some d) now).1
          = App.histOf sid st
              ++ locs.filterMap (fun it => it.location.map (App.bulkRecord sid now it))
        ∧ App.statsOf sid (App.bulk_update_location dist st (some d) now).1
          = (locs.filterMap App.BulkItem.location).foldl
              (fun acc loc => some (App.update_location_stats dist acc loc now))
              (App.statsOf sid st)) := by
  subst hsid
  constructor
  · intro hover
    simp [App.bulk_update_location, h, hover]
  · intro hle
    have hnot : ¬ locs.length > 50 := by omega
    have hb : App.bulk_update_location dist st (some d) now
        = ((App.bulk_process dist (d.session_id.getD "anonymous") now st locs).1,
           App.BulkResp.ok (App.bulk_process dist (d.session_id.getD "anonymous") now st locs).2) := by
      simp [App.bulk_update_location, h, hnot]
    obtain ⟨hc, hh, hs⟩ :=
      bulk_process_characterization dist (d.session_id.getD "anonymous") now locs st
    rw [hb]
    exact ⟨by rw [hc], hh, hs⟩

/-- An oversized bulk batch: 51 samples. -/
def bulkReq51 : App.BulkReq :=
  { session_id := some "S1", locations := some (List.replicate 51 bulkItem0) }

set_option maxRecDepth 4000 in
/-- Witness for C8: 51 samples rejected whole; 50 samples all processed. -/
theorem c8_witness :
    App.bulk_update_location dist0 App.initAppState (some bulkReq51) 0
        = (App.initAppState, App.BulkResp.badInput "Maximum 50 locations per bulk update")
      ∧ (App.bulk_update_location dist0 App.initAppState (some bulkReq50) 0).2
        = App.BulkResp.ok ((List.replicate 50 bulkItem0).filterMap App.BulkItem.location).length := by
  constructor
  · exact (c8_bulk_batch_semantics dist0 App.initAppState bulkReq51
      (List.replicate 51 bulkItem0) "S1" 0 rfl rfl).1 (by decide)
  · exact ((c8_bulk_batch_semantics dist0 App.initAppState bulkReq50
      (List.replicate 50 bulkItem0) "S1" 0 rfl rfl).2 (by decide)).1

/-- C9 counterexample: the claim says the walk-time estimate equals
max(5, round(d*3)) for every distance d.  src/app.py line 128 computes
max(5, int(distance*3)) — truncation, not rounding: at d = 5/2 km the code
yields 7 while the claimed formula yields 8. -/
theorem c9_counterexample_truncation_differs :
    App.calculated_time_minutes (5 / 2) = 7
      ∧ App.spec_estimatedWalkTimeMinutes (5 / 2) = 8
      ∧ App.calculated_time_minutes (5 / 2) ≠ App.spec_estimatedWalkTimeMinutes (5 / 2) := by
  norm_num [App.calculated_time_minutes, App.spec_estimatedWalkTimeMinutes, pyTrunc, pyRound]

/-- C9 (amended): for every nonnegative distance d, the walk-time estimate
the code computes equals max(5, the floor of d*3) — truncation of the
product, not its rounding. -/
theorem c9_walk_time_uses_truncation (d : ℚ) (h : 0 ≤ d) :
    App.calculated_time_minutes d = max 5 ⌊d * 3⌋ := by
  rw [App.calculated_time_minutes, pyTrunc, if_pos (by positivity)]

/-- Witness for C9 at d = 3. -/
theorem c9_witness : App.calculated_time_minutes 3 = max 5 ⌊(3 : ℚ) * 3⌋ :=
  c9_walk_time_uses_truncation 3 (by simp)

/-- A location fix carrying an accuracy. -/
def locAcc (a : ℚ) : Location := { latitude := 32, longitude := 76, accuracy := some a }

/-- A bulk item whose location carries an accuracy. -/
def accItem (a : ℚ) : App.BulkItem := { location := some (locAcc a), timestamp := some 0 }

/-- A bulk batch ingesting accuracies 10, 20, 30 for S1. -/
def accReq : App.BulkReq :=
  { session_id := some "S1", locations := some [accItem 10, accItem 20, accItem 30] }

/-- C10: on every ingested sample carrying a nonzero accuracy, the stored
running mean becomes (oldAvg*(n-1) + newAccuracy)/n where n is the
just-incremented total update count of the session; ingesting accuracies
10, 20, 30 leaves the stored mean at exactly 20. -/
theorem c10_running_mean_accuracy (dist : Location → Location → ℚ)
    (prev : App.SessionStats) (loc : Location) (a : ℚ) (now : ℚ)
    (h : loc.accuracy = some a) (ha : a ≠ 0) :
    (App.update_location_stats dist (some prev) loc now).total_updates
        = prev.total_updates + 1
      ∧ (App.update_location_stats dist (some prev) loc now).average_accuracy
        = (prev.average_accuracy * (((prev.total_updates : ℚ) + 1) - 1) + a)
            / ((prev.total_updates : ℚ) + 1)
      ∧ (App.statsOf "S1" (App.bulk_update_location dist0 App.initAppState (some accReq) 0).1).map
          App.SessionStats.average_accuracy = some 20 := by
  refine ⟨?_, ?_, ?_⟩
  · rcases hn : prev.total_updates with _ | n <;>
      rcases hl : prev.last_location with _ | pl <;>
      rcases hs : loc.speed with _ | s <;>
      simp [App.update_location_stats, h, ha, hn, hl, hs] <;>
      split_ifs <;> simp
  · rcases hn : prev.total_updates with _ | n <;>
      rcases hl : prev.last_location with _ | pl <;>
      rcases hs : loc.speed with _ | s <;>
      simp [App.update_location_stats, h, ha, hn, hl, hs] <;>
      split_ifs <;> push_cast <;> ring_nf
  · norm_num [App.bulk_update_location, App.bulk_process, App.update_location_stats,
      App.statsOf, App.initAppState, accReq, accItem, locAcc, dist0, App.bulkRecord,
      dictGet, dictSet]

/-- A stats entry after two ingests with mean accuracy 15. -/
def prevW : App.SessionStats :=
  { first_location := some loc0, last_location := some loc0, total_distance := 0,
    total_updates := 2, average_accuracy := 15, speed_records := [] }

/-- Witness for C10: the third ingest with accuracy 30 over a mean of 15. -/
theorem c10_witness :
    (App.update_location_stats dist0 (some prevW) (locAcc 30) 0).total_updates
        = prevW.total_updates + 1
      ∧ (App.update_location_stats dist0 (some prevW) (locAcc 30) 0).average_accuracy
        = (prevW.average_accuracy * (((prevW.total_updates : ℚ) + 1) - 1) + 30)
            / ((prevW.total_updates : ℚ) + 1) :=
  ⟨(c10_running_mean_accuracy dist0 prevW (locAcc 30) 30 0 rfl (by simp)).1,
   (c10_running_mean_accuracy dist0 prevW (locAcc 30) 30 0 rfl (by simp)).2.1⟩
